import Mathlib

/-!
Shallow embedding of the MCQ batch-scoring backend (`mcq_analysis.py`).

Python floats are modelled as rationals, Python `round(x, 2)` as `round2`,
and Python values that may not be strings (on which calling `upper()`
raises `AttributeError`) as `PyVal`.  Fallible code returns `Except`.
-/

/-- Equality of `Except` values is decidable when it is on both sides. -/
instance {ε α : Type} [DecidableEq ε] [DecidableEq α] :
    DecidableEq (Except ε α) := fun x y =>
  match x, y with
  | .ok a, .ok b =>
    if h : a = b then isTrue (h ▸ rfl)
    else isFalse fun hc => h (Except.ok.inj hc)
  | .error a, .error b =>
    if h : a = b then isTrue (h ▸ rfl)
    else isFalse fun hc => h (Except.error.inj hc)
  | .ok _, .error _ => isFalse fun hc => Except.noConfusion hc
  | .error _, .ok _ => isFalse fun hc => Except.noConfusion hc

/-- Uppercasing a string, as Python `str.upper` does on the ASCII strings
this program handles. -/
def strUpper (s : String) : String := ⟨s.data.map Char.toUpper⟩

/-- Lowercasing a string, as Python `str.lower` does on the ASCII strings
this program handles. -/
def strLower (s : String) : String := ⟨s.data.map Char.toLower⟩

/-- An atomic Python value as it appears in answer sheets and answer keys:
either a string, or a non-string value (modelled by an integer), on which
calling `upper()` raises. -/
inductive PyVal where
  | str : String → PyVal
  | int : Int → PyVal
deriving DecidableEq, Repr

/-- Calling `upper()` on a value: succeeds on strings, raises otherwise. -/
def pyUpper : PyVal → Except String String
  | .str s => .ok (strUpper s)
  | .int _ => .error "AttributeError: object has no attribute upper"

/-- Coercion `str(v)`, which is total in Python. -/
def pyStr : PyVal → String
  | .str s => s
  | .int n => toString n

/-- One entry of the raw answer key passed to the batch endpoint: either a
raw value or a dict (modelled as an association list). -/
inductive KeyEntry where
  | val : PyVal → KeyEntry
  | dict : List (String × PyVal) → KeyEntry
deriving DecidableEq, Repr

/-- Extraction of the correct answer from a key entry, line 139 of
`mcq_analysis.py`: a dict uses `get` with the dict itself as default, so a
dict without the field raises when `upper()` is called on the dict; other
values are coerced with `str` and uppercased. -/
def keyCorrect : KeyEntry → Except String String
  | .val v => .ok (strUpper (pyStr v))
  | .dict d =>
    match d.lookup "correct_answer" with
    | some v => pyUpper v
    | none => .error "AttributeError: dict object has no attribute upper"

/-- A student sheet: a sequence of answers, or a mapping from the string
form of the question number to an answer. -/
inductive StudentSheet where
  | seq : List PyVal → StudentSheet
  | map : List (String × PyVal) → StudentSheet
deriving DecidableEq, Repr

/-- Extraction of the student answer for 0-based question index `i`,
line 138 of `mcq_analysis.py`: mappings use `get` with default the empty
string, sequences index by position with missing index giving the empty
string; the result is uppercased. -/
def studentAnswerAt : StudentSheet → Nat → Except String String
  | .map m, i =>
    match m.lookup (toString (i + 1)) with
    | some v => pyUpper v
    | none => .ok ""
  | .seq l, i =>
    if h : i < l.length then pyUpper (l.get ⟨i, h⟩) else .ok ""

/-- A recorded verdict for a non-correct question (an element of the
`mistakes` list). -/
structure Mistake where
  question_number : Nat
  type : String
  student_answer : String
  correct_answer : String
  explanation : String
deriving DecidableEq, Repr

/-- Accumulator of the scoring loop of `analyze_single_mcq_sheet`. -/
structure Tally where
  correct : Nat
  wrong : Nat
  unanswered : Nat
  mistakes : List Mistake
deriving DecidableEq, Repr

/-- The scoring loop of `analyze_single_mcq_sheet` (lines 136-160), run on
the answer-key entries starting at 0-based index `i`.  The first failing
extraction aborts the whole analysis, as the Python exception does. -/
def scoreLoop (sheet : StudentSheet) : List KeyEntry → Nat → Except String Tally
  | [], _ => .ok ⟨0, 0, 0, []⟩
  | e :: rest, i => do
    let s ← studentAnswerAt sheet i
    let c ← keyCorrect e
    let t ← scoreLoop sheet rest (i + 1)
    if s = "" then
      pure ⟨t.correct, t.wrong, t.unanswered + 1,
        ⟨i + 1, "unanswered", "", c,
          "Question " ++ toString (i + 1) ++ " was not answered"⟩ :: t.mistakes⟩
    else if s = c then
      pure ⟨t.correct + 1, t.wrong, t.unanswered, t.mistakes⟩
    else
      pure ⟨t.correct, t.wrong + 1, t.unanswered,
        ⟨i + 1, "incorrect", s, c,
          "Question " ++ toString (i + 1) ++ ": Selected " ++ s ++
            ", correct answer is " ++ c⟩ :: t.mistakes⟩

/-- Python `round(q, 2)`.  Halfway behaviour is irrelevant below. -/
def round2 (q : ℚ) : ℚ := ((round (q * 100) : ℤ) : ℚ) / 100

/-- `calculate_grade` (lines 227-250). -/
def calculate_grade (percentage : ℚ) : String :=
  if 90 ≤ percentage then "A+"
  else if 85 ≤ percentage then "A"
  else if 80 ≤ percentage then "A-"
  else if 75 ≤ percentage then "B+"
  else if 70 ≤ percentage then "B"
  else if 65 ≤ percentage then "B-"
  else if 60 ≤ percentage then "C+"
  else if 55 ≤ percentage then "C"
  else if 50 ≤ percentage then "C-"
  else if 45 ≤ percentage then "D"
  else "F"

/-- The result dict built by `analyze_single_mcq_sheet` (lines 165-175). -/
structure SheetResult where
  student_id : Nat
  score : Nat
  total_questions : Nat
  score_percentage : ℚ
  correct_answers : Nat
  wrong_answers : Nat
  unanswered : Nat
  mistakes : List Mistake
  grade : String
deriving DecidableEq, Repr

/-- `analyze_single_mcq_sheet` (lines 129-175).  The output percentage is
rounded to 2 decimals; the grade is computed from the unrounded
percentage, as in the source. -/
def analyze_single_mcq_sheet (student_answers : StudentSheet)
    (answer_key : List KeyEntry) (student_id : Nat) :
    Except String SheetResult := do
  let t ← scoreLoop student_answers answer_key 0
  let total_questions := answer_key.length
  let score_percentage : ℚ :=
    if 0 < total_questions then ((t.correct : ℚ) / total_questions) * 100 else 0
  pure {
    student_id := student_id
    score := t.correct
    total_questions := total_questions
    score_percentage := round2 score_percentage
    correct_answers := t.correct
    wrong_answers := t.wrong
    unanswered := t.unanswered
    mistakes := t.mistakes
    grade := calculate_grade score_percentage }

/-- `get_mcq_limit` (lines 252-260). -/
def get_mcq_limit (plan : String) : Nat :=
  match strLower plan with
  | "free" => 0
  | "basic" => 0
  | "standard" => 200
  | "premium" => 500
  | _ => 0

/-- One element of the `results` list built by `analyze_mcq_batch`: a
normal sheet result, or the substituted error entry
`(student_id, error message, total_questions)` whose score is 0. -/
inductive ResultEntry where
  | ok : SheetResult → ResultEntry
  | err : Nat → String → Nat → ResultEntry
deriving DecidableEq, Repr

/-- Reading the score field with default 0: error entries carry score 0. -/
def ResultEntry.getScore : ResultEntry → Nat
  | .ok r => r.score
  | .err _ _ _ => 0

/-- Reading the grade field with default F: error entries have no grade
field, so the default F is used. -/
def ResultEntry.getGrade : ResultEntry → String
  | .ok r => r.grade
  | .err _ _ _ => "F"

/-- The per-sheet step of the batch loop (lines 96-112): score the sheet,
and on failure substitute the error entry. -/
def scoreOne (sheet : StudentSheet) (answer_key : List KeyEntry) (sid : Nat) :
    ResultEntry :=
  match analyze_single_mcq_sheet sheet answer_key sid with
  | .ok r => .ok r
  | .error e =>
    .err sid ("Failed to analyze sheet " ++ toString sid ++ ": " ++ e)
      answer_key.length

/-- The batch loop `for idx, student_sheet in enumerate(student_answers)`
(lines 96-112), with `idx` starting at the given offset. -/
def scoreAllFrom (answer_key : List KeyEntry) :
    List StudentSheet → Nat → List ResultEntry
  | [], _ => []
  | sheet :: rest, idx =>
    scoreOne sheet answer_key (idx + 1) :: scoreAllFrom answer_key rest (idx + 1)

/-- One step of the grade-distribution accumulation (line 194):
`grade_distribution[grade] = grade_distribution.get(grade, 0) + 1` on an
insertion-ordered dict. -/
def bumpGrade (dist : List (String × Nat)) (g : String) : List (String × Nat) :=
  if (dist.lookup g).isSome then
    dist.map (fun p => if p.1 = g then (p.1, p.2 + 1) else p)
  else dist ++ [(g, 1)]

/-- The grade-distribution loop of `generate_batch_summary` (lines 191-194). -/
def gradeDistribution (results : List ResultEntry) : List (String × Nat) :=
  results.foldl (fun d r => bumpGrade d r.getGrade) []

/-- One element of `question_analysis` (lines 208-214). -/
structure QuestionStat where
  question_number : Nat
  correct_responses : Nat
  incorrect_responses : Nat
  success_rate : ℚ
  difficulty : String
deriving DecidableEq, Repr

/-- The summary dict built by `generate_batch_summary` (lines 216-225). -/
structure BatchSummary where
  total_students : Nat
  total_questions : Nat
  average_score : ℚ
  average_percentage : ℚ
  highest_score : Nat
  lowest_score : Nat
  grade_distribution : List (String × Nat)
  question_analysis : List QuestionStat
deriving DecidableEq, Repr

/-- `generate_batch_summary` (lines 177-225).  An empty results list
returns the empty dict, modelled as `none`.  The output average score is
rounded, while the average percentage is computed from the unrounded
average, as in the source. -/
def generate_batch_summary (results : List ResultEntry)
    (answer_key : List KeyEntry) : Option BatchSummary :=
  if results.isEmpty then none else
  let total_students := results.length
  let total_questions := answer_key.length
  let total_score := (results.map ResultEntry.getScore).sum
  let average_score : ℚ :=
    if 0 < total_students then (total_score : ℚ) / total_students else 0
  let average_percentage : ℚ :=
    if 0 < total_questions then (average_score / total_questions) * 100 else 0
  let question_analysis := (List.range total_questions).map (fun i =>
    let correct_count := (results.filter (fun r => decide (i < r.getScore))).length
    let rate : ℚ := (correct_count : ℚ) / total_students
    { question_number := i + 1
      correct_responses := correct_count
      incorrect_responses := total_students - correct_count
      success_rate := round2 (rate * 100)
      difficulty :=
        if (0.8 : ℚ) < rate then "Easy"
        else if (0.5 : ℚ) < rate then "Medium" else "Hard" })
  some {
    total_students := total_students
    total_questions := total_questions
    average_score := round2 average_score
    average_percentage := round2 average_percentage
    highest_score := ((results.map ResultEntry.getScore).max?).getD 0
    lowest_score := ((results.map ResultEntry.getScore).min?).getD 0
    grade_distribution := gradeDistribution results
    question_analysis := question_analysis }

/-- The outcome of the `/analyze-mcq-batch` endpoint on a request whose
fields are present and well-typed: the 400 failure for an empty answer
key (line 79), the 400 plan-limit failure carrying the limit and the
submitted count (lines 89-92), or the success payload with the results
list and the summary. -/
inductive BatchOutcome where
  | emptyKeyError : BatchOutcome
  | limitError : String → Nat → Nat → BatchOutcome
  | ok : List ResultEntry → Option BatchSummary → BatchOutcome
deriving DecidableEq, Repr

/-- The `analyze_mcq_batch` endpoint body (lines 66-124), restricted to
requests whose fields are present and well-typed. -/
def analyze_mcq_batch (student_answers : List StudentSheet)
    (answer_key : List KeyEntry) (user_plan : String) : BatchOutcome :=
  if answer_key.isEmpty then .emptyKeyError
  else
    let max_analyses := get_mcq_limit user_plan
    if max_analyses < student_answers.length then
      .limitError user_plan max_analyses student_answers.length
    else
      let results := scoreAllFrom answer_key student_answers 0
      .ok results (generate_batch_summary results answer_key)

/-- The student id carried by a result entry. -/
def ResultEntry.sid : ResultEntry → Nat
  | .ok r => r.student_id
  | .err i _ _ => i

/-- The identity-independent content of a result entry: a normal result
with its student id cleared, or, for an error entry, its score (always 0)
and its total_questions. -/
def ResultEntry.shape : ResultEntry → SheetResult ⊕ (Nat × Nat)
  | .ok r => .inl { r with student_id := 0 }
  | .err _ _ tq => .inr (0, tq)

/-! ## Derived per-question predicates

These definitions re-express, per 0-based question index, the
classification the scoring loop performs, for use in the statements
about `analyze_single_mcq_sheet`. -/

/-- The question at index `i` was answered correctly: both extractions
succeed, the student answer is non-empty and equals the correct one. -/
def answerCorrectAt (sheet : StudentSheet) (e : KeyEntry) (i : Nat) : Bool :=
  match studentAnswerAt sheet i, keyCorrect e with
  | .ok s, .ok c => if s = "" then false else s == c
  | _, _ => false

/-- The student answer at index `i` extracts to the empty string. -/
def answerEmptyAt (sheet : StudentSheet) (i : Nat) : Bool :=
  match studentAnswerAt sheet i with
  | .ok s => s == ""
  | .error _ => false

/-- The question at index `i` was answered with a non-empty answer that
differs from the correct one. -/
def answerWrongAt (sheet : StudentSheet) (e : KeyEntry) (i : Nat) : Bool :=
  match studentAnswerAt sheet i, keyCorrect e with
  | .ok s, .ok c => if s = "" then false else s != c
  | _, _ => false

/-- Number of correctly answered questions among the key entries starting
at index `i`. -/
def countCorrect (sheet : StudentSheet) : List KeyEntry → Nat → Nat
  | [], _ => 0
  | e :: rest, i =>
    (if answerCorrectAt sheet e i then 1 else 0) + countCorrect sheet rest (i + 1)

/-- Number of wrongly answered questions among the key entries starting
at index `i`. -/
def countWrong (sheet : StudentSheet) : List KeyEntry → Nat → Nat
  | [], _ => 0
  | e :: rest, i =>
    (if answerWrongAt sheet e i then 1 else 0) + countWrong sheet rest (i + 1)

/-- Number of unanswered questions among the key entries starting at
index `i`. -/
def countUnanswered (sheet : StudentSheet) : List KeyEntry → Nat → Nat
  | [], _ => 0
  | _ :: rest, i =>
    (if answerEmptyAt sheet i then 1 else 0) + countUnanswered sheet rest (i + 1)

/-- The verdict the loop records for the question at 0-based index `i`
against key entry `e`: `none` when the answer is correct or an extraction
fails (in which case no verdict is recorded at all). -/
def mistakeAt (sheet : StudentSheet) (e : KeyEntry) (i : Nat) : Option Mistake :=
  match studentAnswerAt sheet i, keyCorrect e with
  | .ok s, .ok c =>
    if s = "" then
      some ⟨i + 1, "unanswered", "", c,
        "Question " ++ toString (i + 1) ++ " was not answered"⟩
    else if s = c then none
    else
      some ⟨i + 1, "incorrect", s, c,
        "Question " ++ toString (i + 1) ++ ": Selected " ++ s ++
          ", correct answer is " ++ c⟩
  | _, _ => none

/-- The mistakes the loop records for the key entries starting at index
`i`, in loop order. -/
def expectedMistakes (sheet : StudentSheet) : List KeyEntry → Nat → List Mistake
  | [], _ => []
  | e :: rest, i =>
    match mistakeAt sheet e i with
    | some m => m :: expectedMistakes sheet rest (i + 1)
    | none => expectedMistakes sheet rest (i + 1)

/-! ## Helper lemmas -/

/-- Evaluation rule for `round2` at a concrete rational: if the integer
`n` is within a half of `q * 100`, then `round2 q = n / 100`. -/
theorem round2_val (q : ℚ) (n : ℤ) (h₁ : (n : ℚ) ≤ q * 100 + 1 / 2)
    (h₂ : q * 100 + 1 / 2 < n + 1) : round2 q = (n : ℚ) / 100 := by
  unfold round2
  rw [round_eq, Int.floor_eq_iff.mpr ⟨h₁, by exact_mod_cast h₂⟩]

/-! ## C3: the grade calculator -/

set_option maxHeartbeats 1600000 in
/-- Interval characterization of `calculate_grade`: the nested conditions
of the source yield non-overlapping half-open intervals. -/
theorem calculate_grade_iff (p : ℚ) :
    (calculate_grade p = "A+" ↔ 90 ≤ p) ∧
    (calculate_grade p = "A" ↔ 85 ≤ p ∧ p < 90) ∧
    (calculate_grade p = "A-" ↔ 80 ≤ p ∧ p < 85) ∧
    (calculate_grade p = "B+" ↔ 75 ≤ p ∧ p < 80) ∧
    (calculate_grade p = "B" ↔ 70 ≤ p ∧ p < 75) ∧
    (calculate_grade p = "B-" ↔ 65 ≤ p ∧ p < 70) ∧
    (calculate_grade p = "C+" ↔ 60 ≤ p ∧ p < 65) ∧
    (calculate_grade p = "C" ↔ 55 ≤ p ∧ p < 60) ∧
    (calculate_grade p = "C-" ↔ 50 ≤ p ∧ p < 55) ∧
    (calculate_grade p = "D" ↔ 45 ≤ p ∧ p < 50) ∧
    (calculate_grade p = "F" ↔ p < 45) := by
  unfold calculate_grade
  split_ifs with h1 h2 h3 h4 h5 h6 h7 h8 h9 h10 <;>
    refine ⟨?_, ?_, ?_, ?_, ?_, ?_, ?_, ?_, ?_, ?_, ?_⟩ <;>
    constructor <;>
    intro h <;>
    first
      | rfl
      | exact absurd h (by decide)
      | exact ⟨by linarith, by linarith⟩
      | linarith

/-- C3: `calculate_grade` is total on the rationals and is given by the
descending thresholds 90, 85, 80, 75, 70, 65, 60, 55, 50, 45 mapped to
A+, A, A-, B+, B, B-, C+, C, C-, D, with F below 45; in particular
`calculate_grade 90 = A+`, `calculate_grade 89.9 = A`, and
`calculate_grade 44.9 = F`. -/
theorem C3_theorem (p : ℚ) :
    (calculate_grade p = "A+" ↔ 90 ≤ p) ∧
    (calculate_grade p = "A" ↔ 85 ≤ p ∧ p < 90) ∧
    (calculate_grade p = "A-" ↔ 80 ≤ p ∧ p < 85) ∧
    (calculate_grade p = "B+" ↔ 75 ≤ p ∧ p < 80) ∧
    (calculate_grade p = "B" ↔ 70 ≤ p ∧ p < 75) ∧
    (calculate_grade p = "B-" ↔ 65 ≤ p ∧ p < 70) ∧
    (calculate_grade p = "C+" ↔ 60 ≤ p ∧ p < 65) ∧
    (calculate_grade p = "C" ↔ 55 ≤ p ∧ p < 60) ∧
    (calculate_grade p = "C-" ↔ 50 ≤ p ∧ p < 55) ∧
    (calculate_grade p = "D" ↔ 45 ≤ p ∧ p < 50) ∧
    (calculate_grade p = "F" ↔ p < 45) ∧
    calculate_grade 90 = "A+" ∧ calculate_grade (89.9 : ℚ) = "A" ∧
    calculate_grade (44.9 : ℚ) = "F" := by
  obtain ⟨c1, c2, c3, c4, c5, c6, c7, c8, c9, c10, c11⟩ := calculate_grade_iff p
  exact ⟨c1, c2, c3, c4, c5, c6, c7, c8, c9, c10, c11,
    (calculate_grade_iff 90).1.mpr (by norm_num),
    (calculate_grade_iff (89.9 : ℚ)).2.1.mpr ⟨by norm_num, by norm_num⟩,
    (calculate_grade_iff (44.9 : ℚ)).2.2.2.2.2.2.2.2.2.2.mpr (by norm_num)⟩

/-- Concrete instance of `C3_theorem`. -/
theorem C3_witness : calculate_grade 90 = "A+" ∧ 90 ≤ (90 : ℚ) :=
  ⟨(C3_theorem 90).1.mpr (by norm_num), by norm_num⟩

/-! ## C7: the batch summary of an empty results list -/

/-- C7: `generate_batch_summary` applied to an empty results list returns
the empty summary immediately, so no division is performed; moreover when
the answer key is empty the guarded average percentage is 0 and the
per-question analysis is empty, so no division by `total_questions`
occurs either. -/
theorem C7_theorem :
    (∀ answer_key : List KeyEntry, generate_batch_summary [] answer_key = none) ∧
    (∀ (results : List ResultEntry) (s : BatchSummary),
      generate_batch_summary results [] = some s →
      s.average_percentage = 0 ∧ s.question_analysis = []) := by
  constructor
  · intro key
    rfl
  · intro res s h
    rcases res with _ | ⟨r, rs⟩
    · simp [generate_batch_summary] at h
    · rw [generate_batch_summary] at h
      simp only [List.isEmpty_cons, if_false, Bool.false_eq_true, List.length_nil,
        lt_irrefl, if_neg, Option.some.injEq] at h
      subst h
      refine ⟨?_, by simp⟩
      norm_num [round2]

/-- Concrete instance of `C7_theorem`. -/
theorem C7_witness :
    generate_batch_summary [] [KeyEntry.val (PyVal.str "A")] = none ∧
    generate_batch_summary [ResultEntry.err 1 "boom" 0] [] =
      some ⟨1, 0, 0, 0, 0, 0, [("F", 1)], []⟩ ∧
    (⟨1, 0, 0, 0, 0, 0, [("F", 1)], []⟩ : BatchSummary).average_percentage = 0 ∧
    (⟨1, 0, 0, 0, 0, 0, [("F", 1)], []⟩ : BatchSummary).question_analysis = [] := by
  have h : generate_batch_summary [ResultEntry.err 1 "boom" 0] [] =
      some ⟨1, 0, 0, 0, 0, 0, [("F", 1)], []⟩ := by
    norm_num [generate_batch_summary, gradeDistribution, bumpGrade, round2,
      ResultEntry.getScore, ResultEntry.getGrade]
  exact ⟨C7_theorem.1 _, h, (C7_theorem.2 _ _ h).1, (C7_theorem.2 _ _ h).2⟩

/-! ## C8: the plan limiter -/

/-- C8 (amended): on a request whose answer key is non-empty, if the
number of submitted sheets exceeds the case-insensitive plan limit
(free 0, basic 0, standard 200, premium 500, unknown plans 0), the batch
endpoint answers with the limit failure carrying the limit and the
submitted count, and no sheet is scored; in particular the limit for
PREMIUM is 500 and for unknown is 0. -/
theorem C8_theorem (student_answers : List StudentSheet)
    (answer_key : List KeyEntry) (user_plan : String)
    (hkey : answer_key ≠ [])
    (hover : get_mcq_limit user_plan < student_answers.length) :
    analyze_mcq_batch student_answers answer_key user_plan =
      .limitError user_plan (get_mcq_limit user_plan) student_answers.length ∧
    get_mcq_limit "PREMIUM" = 500 ∧ get_mcq_limit "unknown" = 0 := by
  refine ⟨?_, by decide, by decide⟩
  rw [analyze_mcq_batch]
  rw [if_neg (by simpa [List.isEmpty_iff] using hkey), if_pos hover]

/-- Concrete instance of `C8_theorem`. -/
theorem C8_witness :
    ([KeyEntry.val (PyVal.str "A")] ≠ ([] : List KeyEntry)) ∧
    get_mcq_limit "free" < 1 ∧
    (analyze_mcq_batch [StudentSheet.seq []] [KeyEntry.val (PyVal.str "A")] "free" =
      .limitError "free" (get_mcq_limit "free") 1 ∧
    get_mcq_limit "PREMIUM" = 500 ∧ get_mcq_limit "unknown" = 0) :=
  ⟨by decide, by decide, C8_theorem [.seq []] [.val (.str "A")] "free" (by decide) (by decide)⟩

/-- C8, claim as stated, is false when the answer key is empty: with plan
free (limit 0) and one submitted sheet the endpoint answers with the
empty-answer-key failure, which is not the limit failure and carries
neither the limit nor the count. -/
theorem C8_counterexample :
    get_mcq_limit "free" = 0 ∧
    analyze_mcq_batch [StudentSheet.seq []] [] "free" = BatchOutcome.emptyKeyError ∧
    BatchOutcome.emptyKeyError ≠ BatchOutcome.limitError "free" 0 1 := by
  refine ⟨by decide, rfl, by decide⟩

/-! ## The scoring loop -/

@[simp] theorem except_bind_ok {α β ε : Type} (a : α) (f : α → Except ε β) :
    (Except.ok a : Except ε α) >>= f = f a := rfl

@[simp] theorem except_bind_error {α β ε : Type} (e : ε) (f : α → Except ε β) :
    (Except.error e : Except ε α) >>= f = Except.error e := rfl

@[simp] theorem except_pure_eq {α ε : Type} (a : α) :
    (pure a : Except ε α) = Except.ok a := rfl

/-- What a successful run of the scoring loop returns: the three counters
count the per-question classifications, they sum to the number of
questions, and the mistakes list is the per-question record in loop
order. -/
theorem scoreLoop_ok_spec (sheet : StudentSheet) :
    ∀ (key : List KeyEntry) (i : Nat) (t : Tally),
      scoreLoop sheet key i = .ok t →
      t.correct = countCorrect sheet key i ∧
      t.wrong = countWrong sheet key i ∧
      t.unanswered = countUnanswered sheet key i ∧
      t.mistakes = expectedMistakes sheet key i ∧
      t.correct + t.wrong + t.unanswered = key.length ∧
      t.mistakes.length = t.wrong + t.unanswered := by
  intro key
  induction key with
  | nil =>
    intro i t h
    simp only [scoreLoop, Except.ok.injEq] at h
    subst h
    simp [countCorrect, countWrong, countUnanswered, expectedMistakes]
  | cons e rest ih =>
    intro i t h
    rw [scoreLoop] at h
    cases hs : studentAnswerAt sheet i with
    | error msg => rw [hs] at h; simp at h
    | ok s =>
      rw [hs] at h
      cases hc : keyCorrect e with
      | error msg => rw [hc] at h; simp at h
      | ok c =>
        rw [hc] at h
        cases hrec : scoreLoop sheet rest (i + 1) with
        | error msg => rw [hrec] at h; simp at h
        | ok t' =>
          rw [hrec] at h
          simp only [except_bind_ok] at h
          obtain ⟨ih1, ih2, ih3, ih4, ih5, ih6⟩ := ih (i + 1) t' hrec
          have hlen : t'.mistakes.length =
              (expectedMistakes sheet rest (i + 1)).length := by rw [ih4]
          by_cases h1 : s = ""
          · rw [if_pos h1] at h
            simp only [except_pure_eq, Except.ok.injEq] at h
            subst h
            simp [countCorrect, countWrong, countUnanswered, expectedMistakes,
              answerCorrectAt, answerEmptyAt, answerWrongAt, mistakeAt,
              hs, hc, h1, ih1, ih2, ih3, ih4]
            omega
          · rw [if_neg h1] at h
            by_cases h2 : s = c
            · rw [if_pos h2] at h
              simp only [except_pure_eq, Except.ok.injEq] at h
              subst h
              subst h2
              simp [countCorrect, countWrong, countUnanswered, expectedMistakes,
                answerCorrectAt, answerEmptyAt, answerWrongAt, mistakeAt,
                hs, hc, h1, ih1, ih2, ih3, ih4]
              omega
            · rw [if_neg h2] at h
              simp only [except_pure_eq, Except.ok.injEq] at h
              subst h
              simp [countCorrect, countWrong, countUnanswered, expectedMistakes,
                answerCorrectAt, answerEmptyAt, answerWrongAt, mistakeAt,
                hs, hc, h1, h2, ih1, ih2, ih3, ih4]
              omega

/-- A recorded mistake for index `i` carries question number `i + 1`. -/
theorem mistakeAt_qn (sheet : StudentSheet) (e : KeyEntry) (i : Nat) (m : Mistake)
    (h : mistakeAt sheet e i = some m) : m.question_number = i + 1 := by
  unfold mistakeAt at h
  cases hst : studentAnswerAt sheet i with
  | error msg => rw [hst] at h; simp at h
  | ok s =>
    rw [hst] at h
    cases hkc : keyCorrect e with
    | error msg => rw [hkc] at h; simp at h
    | ok c =>
      rw [hkc] at h
      simp only [] at h
      split_ifs at h <;>
        (simp only [Option.some.injEq] at h; rw [← h])

/-- Question numbers of recorded mistakes lie between `i + 1` and
`i + key.length`. -/
theorem expectedMistakes_qn_bounds (sheet : StudentSheet) :
    ∀ (key : List KeyEntry) (i : Nat) (m : Mistake),
      m ∈ expectedMistakes sheet key i →
      i + 1 ≤ m.question_number ∧ m.question_number ≤ i + key.length := by
  intro key
  induction key with
  | nil => intro i m hm; simp [expectedMistakes] at hm
  | cons e rest ih =>
    intro i m hm
    rw [expectedMistakes] at hm
    cases hma : mistakeAt sheet e i with
    | none =>
      rw [hma] at hm
      have := ih (i + 1) m hm
      constructor <;> [omega; (simp only [List.length_cons]; omega)]
    | some m0 =>
      rw [hma] at hm
      rcases List.mem_cons.mp hm with hm | hm
      · subst hm
        have := mistakeAt_qn sheet e i m hma
        simp only [List.length_cons]
        omega
      · have := ih (i + 1) m hm
        constructor <;> [omega; (simp only [List.length_cons]; omega)]

/-- The question numbers of the recorded mistakes are strictly
increasing. -/
theorem expectedMistakes_sorted (sheet : StudentSheet) :
    ∀ (key : List KeyEntry) (i : Nat),
      ((expectedMistakes sheet key i).map Mistake.question_number).Sorted (· < ·) := by
  intro key
  induction key with
  | nil => intro i; simp [expectedMistakes]
  | cons e rest ih =>
    intro i
    rw [expectedMistakes]
    cases hma : mistakeAt sheet e i with
    | none => exact ih (i + 1)
    | some m0 =>
      simp only [List.map_cons, List.sorted_cons]
      refine ⟨?_, ih (i + 1)⟩
      intro b hb
      rcases List.mem_map.mp hb with ⟨m, hm, hqn⟩
      have hb1 := (expectedMistakes_qn_bounds sheet rest (i + 1) m hm).1
      have := mistakeAt_qn sheet e i m0 hma
      omega

/-- Membership in the recorded mistakes, by question number: the mistake
for question `i + j + 1` is present exactly when `mistakeAt` records one
for index `i + j`, and any member with that question number is that
record. -/
theorem expectedMistakes_mem (sheet : StudentSheet) :
    ∀ (key : List KeyEntry) (i j : Nat) (e : KeyEntry), key[j]? = some e →
      ((∃ m ∈ expectedMistakes sheet key i, m.question_number = i + j + 1) ↔
        mistakeAt sheet e (i + j) ≠ none) ∧
      (∀ m ∈ expectedMistakes sheet key i, m.question_number = i + j + 1 →
        mistakeAt sheet e (i + j) = some m) := by
  intro key
  induction key with
  | nil => intro i j e he; simp at he
  | cons e0 rest ih =>
    intro i j e he
    cases j with
    | zero =>
      simp only [List.getElem?_cons_zero, Option.some.injEq] at he
      subst he
      rw [expectedMistakes]
      cases hma : mistakeAt sheet e0 i with
      | none =>
        constructor
        · simp only [Nat.add_zero, hma, ne_eq, not_true_eq_false, iff_false,
            not_exists]
          intro m hm
          have h1 := (expectedMistakes_qn_bounds sheet rest (i + 1) m hm.1).1
          have h2 := hm.2
          omega
        · intro m hm hqn
          have := (expectedMistakes_qn_bounds sheet rest (i + 1) m hm).1
          omega
      | some m0 =>
        have hqn0 := mistakeAt_qn sheet e0 i m0 hma
        constructor
        · simp only [Nat.add_zero, hma, ne_eq, reduceCtorEq, not_false_eq_true,
            iff_true]
          exact ⟨m0, List.mem_cons_self m0 _, by omega⟩
        · intro m hm hqn
          rcases List.mem_cons.mp hm with hm | hm
          · subst hm; simp only [Nat.add_zero, hma]
          · have := (expectedMistakes_qn_bounds sheet rest (i + 1) m hm).1
            omega
    | succ j' =>
      simp only [List.getElem?_cons_succ] at he
      have hrec := ih (i + 1) j' e he
      have harith : i + 1 + j' = i + (j' + 1) := by omega
      rw [harith] at hrec
      rw [expectedMistakes]
      cases hma : mistakeAt sheet e0 i with
      | none => exact hrec
      | some m0 =>
        have hqn0 := mistakeAt_qn sheet e0 i m0 hma
        constructor
        · rw [← hrec.1]
          constructor
          · rintro ⟨m, hm, hqn⟩
            rcases List.mem_cons.mp hm with hm | hm
            · subst hm; omega
            · exact ⟨m, hm, hqn⟩
          · rintro ⟨m, hm, hqn⟩
            exact ⟨m, List.mem_cons_of_mem _ hm, hqn⟩
        · intro m hm hqn
          rcases List.mem_cons.mp hm with hm | hm
          · subst hm; omega
          · exact hrec.2 m hm hqn

/-- A successful scoring loop means both extractions succeed at every
index of the key. -/
theorem scoreLoop_extractions (sheet : StudentSheet) :
    ∀ (key : List KeyEntry) (i : Nat) (t : Tally),
      scoreLoop sheet key i = .ok t →
      ∀ (j : Nat) (e : KeyEntry), key[j]? = some e →
        (∃ s, studentAnswerAt sheet (i + j) = .ok s) ∧
        (∃ c, keyCorrect e = .ok c) := by
  intro key
  induction key with
  | nil => intro i t ht j e he; simp at he
  | cons e0 rest ih =>
    intro i t ht j e he
    rw [scoreLoop] at ht
    cases hs : studentAnswerAt sheet i with
    | error msg => rw [hs] at ht; simp at ht
    | ok s =>
      rw [hs] at ht
      cases hc : keyCorrect e0 with
      | error msg => rw [hc] at ht; simp at ht
      | ok c =>
        rw [hc] at ht
        cases hrec : scoreLoop sheet rest (i + 1) with
        | error msg => rw [hrec] at ht; simp at ht
        | ok t' =>
          cases j with
          | zero =>
            simp only [List.getElem?_cons_zero, Option.some.injEq] at he
            subst he
            exact ⟨⟨s, by rw [Nat.add_zero]; exact hs⟩, ⟨c, hc⟩⟩
          | succ j' =>
            simp only [List.getElem?_cons_succ] at he
            have harith : i + 1 + j' = i + (j' + 1) := by omega
            have := ih (i + 1) t' hrec j' e he
            rw [harith] at this
            exact this

/-- Under successful extractions, no mistake is recorded at an index
exactly when the question is answered correctly. -/
theorem mistakeAt_none_iff (sheet : StudentSheet) (e : KeyEntry) (i : Nat)
    (s c : String) (hs : studentAnswerAt sheet i = .ok s)
    (hc : keyCorrect e = .ok c) :
    mistakeAt sheet e i = none ↔ answerCorrectAt sheet e i = true := by
  unfold mistakeAt answerCorrectAt
  rw [hs, hc]
  simp only []
  split_ifs with h1 h2 <;> simp_all

theorem except_isOk_exists {α ε : Type} (x : Except ε α) (h : x.isOk = true) :
    ∃ a, x = .ok a := by
  cases x with
  | ok a => exact ⟨a, rfl⟩
  | error e => simp [Except.isOk, Except.toBool] at h

/-- Shape of a successful run of `analyze_single_mcq_sheet` in terms of
its scoring loop. -/
theorem analyze_single_ok (sheet : StudentSheet) (key : List KeyEntry)
    (sid : Nat) (r : SheetResult)
    (h : analyze_single_mcq_sheet sheet key sid = .ok r) :
    ∃ t, scoreLoop sheet key 0 = .ok t ∧
      r = { student_id := sid
            score := t.correct
            total_questions := key.length
            score_percentage := round2
              (if 0 < key.length then ((t.correct : ℚ) / key.length) * 100 else 0)
            correct_answers := t.correct
            wrong_answers := t.wrong
            unanswered := t.unanswered
            mistakes := t.mistakes
            grade := calculate_grade
              (if 0 < key.length then ((t.correct : ℚ) / key.length) * 100 else 0) } := by
  rw [analyze_single_mcq_sheet] at h
  cases hl : scoreLoop sheet key 0 with
  | error msg => rw [hl] at h; simp at h
  | ok t =>
    rw [hl] at h
    simp only [except_bind_ok, except_pure_eq, Except.ok.injEq] at h
    exact ⟨t, rfl, h.symm⟩

/-- C10: a successful single-sheet analysis satisfies the counting
invariants: the three counters sum to the key length, the score is the
number of correct answers, and the mistakes list has exactly one entry
per non-correct question, in ascending question-number order. -/
theorem C10_theorem (sheet : StudentSheet) (key : List KeyEntry) (sid : Nat)
    (hok : (analyze_single_mcq_sheet sheet key sid).isOk = true) :
    ∃ r, analyze_single_mcq_sheet sheet key sid = .ok r ∧
      r.correct_answers + r.wrong_answers + r.unanswered = key.length ∧
      r.total_questions = key.length ∧
      r.score = r.correct_answers ∧
      r.mistakes.length = r.wrong_answers + r.unanswered ∧
      (r.mistakes.map Mistake.question_number).Sorted (· < ·) ∧
      ∀ (j : Nat) (e : KeyEntry), key[j]? = some e →
        ((∃ m ∈ r.mistakes, m.question_number = j + 1) ↔
          answerCorrectAt sheet e j = false) := by
  obtain ⟨r, hr⟩ := except_isOk_exists _ hok
  obtain ⟨t, hl, hre⟩ := analyze_single_ok sheet key sid r hr
  obtain ⟨m1, m2, m3, m4, m5, m6⟩ := scoreLoop_ok_spec sheet key 0 t hl
  subst hre
  refine ⟨_, hr, m5, rfl, rfl, m6, ?_, ?_⟩
  · show ((t.mistakes).map Mistake.question_number).Sorted (· < ·)
    rw [m4]
    exact expectedMistakes_sorted sheet key 0
  · intro j e he
    show (∃ m ∈ t.mistakes, m.question_number = j + 1) ↔ _
    rw [m4]
    have hmem := expectedMistakes_mem sheet key 0 j e he
    have hz : (0 : Nat) + j = j := Nat.zero_add j
    rw [hz] at hmem
    obtain ⟨⟨s, hs⟩, ⟨c, hc⟩⟩ := scoreLoop_extractions sheet key 0 t hl j e he
    rw [hz] at hs
    have hni := mistakeAt_none_iff sheet e j s c hs hc
    constructor
    · intro hex
      have hne := hmem.1.mp hex
      cases hac : answerCorrectAt sheet e j with
      | false => rfl
      | true => exact absurd (hni.mpr hac) hne
    · intro hac
      apply hmem.1.mpr
      intro hnone
      have hbool := hni.mp hnone
      rw [hac] at hbool
      exact absurd hbool (by simp)

/-- Concrete instance of `C10_theorem`: one sheet with a correct, an
incorrect, and a missing answer. -/
theorem C10_witness :
    (analyze_single_mcq_sheet
        (StudentSheet.seq [PyVal.str "a", PyVal.str "X", PyVal.str ""])
        [KeyEntry.val (PyVal.str "A"), KeyEntry.val (PyVal.str "B"),
          KeyEntry.val (PyVal.str "C")] 1).isOk = true ∧
    (∃ r, analyze_single_mcq_sheet
        (StudentSheet.seq [PyVal.str "a", PyVal.str "X", PyVal.str ""])
        [KeyEntry.val (PyVal.str "A"), KeyEntry.val (PyVal.str "B"),
          KeyEntry.val (PyVal.str "C")] 1 = .ok r ∧
      r.correct_answers + r.wrong_answers + r.unanswered = 3 ∧
      r.total_questions = 3 ∧
      r.score = r.correct_answers ∧
      r.mistakes.length = r.wrong_answers + r.unanswered ∧
      (r.mistakes.map Mistake.question_number).Sorted (· < ·) ∧
      ∀ (j : Nat) (e : KeyEntry),
        [KeyEntry.val (PyVal.str "A"), KeyEntry.val (PyVal.str "B"),
          KeyEntry.val (PyVal.str "C")][j]? = some e →
        ((∃ m ∈ r.mistakes, m.question_number = j + 1) ↔
          answerCorrectAt
            (StudentSheet.seq [PyVal.str "a", PyVal.str "X", PyVal.str ""]) e j
            = false)) :=
  ⟨by decide, C10_theorem _ _ 1 (by decide)⟩

/-- C2: when the extracted student answer for question `i + 1` is empty
(in particular for a sequence sheet shorter than `i + 1`), a successful
analysis records the verdict `unanswered` for it, any recorded verdict
for that question is `unanswered` and never `incorrect`, and the
counters classify the question as unanswered, not wrong. -/
theorem C2_theorem (sheet : StudentSheet) (key : List KeyEntry) (sid i : Nat)
    (e : KeyEntry)
    (hok : (analyze_single_mcq_sheet sheet key sid).isOk = true)
    (he : key[i]? = some e)
    (hempty : studentAnswerAt sheet i = Except.ok "") :
    (∀ l : List PyVal, l.length ≤ i →
      studentAnswerAt (StudentSheet.seq l) i = Except.ok "") ∧
    ∃ r, analyze_single_mcq_sheet sheet key sid = .ok r ∧
      (∃ m ∈ r.mistakes, m.question_number = i + 1 ∧ m.type = "unanswered") ∧
      (∀ m ∈ r.mistakes, m.question_number = i + 1 → m.type = "unanswered") ∧
      r.unanswered = countUnanswered sheet key 0 ∧
      r.wrong_answers = countWrong sheet key 0 ∧
      answerEmptyAt sheet i = true ∧
      answerWrongAt sheet e i = false := by
  constructor
  · intro l hl
    simp only [studentAnswerAt]
    rw [dif_neg (by omega)]
  · obtain ⟨r, hr⟩ := except_isOk_exists _ hok
    obtain ⟨t, hl, hre⟩ := analyze_single_ok sheet key sid r hr
    obtain ⟨m1, m2, m3, m4, m5, m6⟩ := scoreLoop_ok_spec sheet key 0 t hl
    obtain ⟨⟨s, hs⟩, ⟨c, hc⟩⟩ := scoreLoop_extractions sheet key 0 t hl i e he
    rw [Nat.zero_add] at hs
    have h2 := hs.symm.trans hempty
    injection h2 with hs0
    subst hs0
    have hma : mistakeAt sheet e i = some ⟨i + 1, "unanswered", "", c,
        "Question " ++ toString (i + 1) ++ " was not answered"⟩ := by
      unfold mistakeAt
      rw [hempty, hc]
      simp
    have hmem := expectedMistakes_mem sheet key 0 i e he
    rw [Nat.zero_add] at hmem
    subst hre
    refine ⟨_, hr, ?_, ?_, m3, m2, ?_, ?_⟩
    · show ∃ m ∈ t.mistakes, m.question_number = i + 1 ∧ m.type = "unanswered"
      rw [m4]
      obtain ⟨m, hm, hqn⟩ := hmem.1.mpr (by rw [hma]; simp)
      have hcontent := hmem.2 m hm hqn
      rw [hma] at hcontent
      injection hcontent with hmval
      exact ⟨m, hm, hqn, by rw [← hmval]⟩
    · show ∀ m ∈ t.mistakes, m.question_number = i + 1 → m.type = "unanswered"
      rw [m4]
      intro m hm hqn
      have hcontent := hmem.2 m hm hqn
      rw [hma] at hcontent
      injection hcontent with hmval
      rw [← hmval]
    · unfold answerEmptyAt
      rw [hempty]
      rfl
    · unfold answerWrongAt
      rw [hempty, hc]
      simp

/-- Concrete instance of `C2_theorem`: a two-question key with the second
answer left empty. -/
theorem C2_witness :
    (analyze_single_mcq_sheet (StudentSheet.seq [PyVal.str "A", PyVal.str ""])
        [KeyEntry.val (PyVal.str "A"), KeyEntry.val (PyVal.str "B")] 1).isOk
      = true ∧
    [KeyEntry.val (PyVal.str "A"), KeyEntry.val (PyVal.str "B")][1]? =
      some (KeyEntry.val (PyVal.str "B")) ∧
    studentAnswerAt (StudentSheet.seq [PyVal.str "A", PyVal.str ""]) 1 =
      Except.ok "" ∧
    ((∀ l : List PyVal, l.length ≤ 1 →
      studentAnswerAt (StudentSheet.seq l) 1 = Except.ok "") ∧
    ∃ r, analyze_single_mcq_sheet
        (StudentSheet.seq [PyVal.str "A", PyVal.str ""])
        [KeyEntry.val (PyVal.str "A"), KeyEntry.val (PyVal.str "B")] 1 =
        .ok r ∧
      (∃ m ∈ r.mistakes, m.question_number = 1 + 1 ∧ m.type = "unanswered") ∧
      (∀ m ∈ r.mistakes, m.question_number = 1 + 1 → m.type = "unanswered") ∧
      r.unanswered = countUnanswered
        (StudentSheet.seq [PyVal.str "A", PyVal.str ""])
        [KeyEntry.val (PyVal.str "A"), KeyEntry.val (PyVal.str "B")] 0 ∧
      r.wrong_answers = countWrong
        (StudentSheet.seq [PyVal.str "A", PyVal.str ""])
        [KeyEntry.val (PyVal.str "A"), KeyEntry.val (PyVal.str "B")] 0 ∧
      answerEmptyAt (StudentSheet.seq [PyVal.str "A", PyVal.str ""]) 1 = true ∧
      answerWrongAt (StudentSheet.seq [PyVal.str "A", PyVal.str ""])
        (KeyEntry.val (PyVal.str "B")) 1 = false) :=
  ⟨by decide, by decide, by decide,
    C2_theorem _ _ 1 1 _ (by decide) (by decide) (by decide)⟩

/-- A scoring loop over matching, non-empty answers counts every question
correct and records no mistakes. -/
theorem scoreLoop_all_correct (sheet : StudentSheet) :
    ∀ (key : List KeyEntry) (i : Nat),
      (∀ (j : Nat) (e : KeyEntry), key[j]? = some e →
        ∃ s, s ≠ "" ∧ studentAnswerAt sheet (i + j) = .ok s ∧
          keyCorrect e = .ok s) →
      scoreLoop sheet key i = .ok ⟨key.length, 0, 0, []⟩ := by
  intro key
  induction key with
  | nil => intro i h; rfl
  | cons e rest ih =>
    intro i hall
    obtain ⟨s, hne, hs, hc⟩ := hall 0 e (by simp)
    rw [Nat.add_zero] at hs
    have hrest : scoreLoop sheet rest (i + 1) = .ok ⟨rest.length, 0, 0, []⟩ := by
      apply ih
      intro j e' he'
      have hj := hall (j + 1) e' (by simpa using he')
      have harith : i + (j + 1) = i + 1 + j := by omega
      rw [harith] at hj
      exact hj
    rw [scoreLoop, hs, hc, hrest]
    simp only [except_bind_ok]
    rw [if_neg hne]
    simp

/-- C1 (amended): for a non-empty answer key, a sheet whose answers are
all non-empty and match the correct answers case-insensitively (both
extractions uppercase, so matching of the uppercased strings is exactly
case-insensitive matching of the raw ones) scores full marks: score = N,
no wrong answers, no unanswered questions, percentage 100. -/
theorem C1_theorem (sheet : StudentSheet) (key : List KeyEntry) (sid : Nat)
    (hkey : key ≠ [])
    (hall : ∀ (j : Nat) (e : KeyEntry), key[j]? = some e →
      ∃ s, s ≠ "" ∧ studentAnswerAt sheet j = .ok s ∧ keyCorrect e = .ok s) :
    ∃ r, analyze_single_mcq_sheet sheet key sid = .ok r ∧
      r.score = key.length ∧ r.wrong_answers = 0 ∧ r.unanswered = 0 ∧
      r.score_percentage = 100 := by
  have hloop : scoreLoop sheet key 0 = .ok ⟨key.length, 0, 0, []⟩ := by
    apply scoreLoop_all_correct
    intro j e he
    have hj := hall j e he
    rwa [Nat.zero_add]
  have han : analyze_single_mcq_sheet sheet key sid = .ok
      { student_id := sid
        score := key.length
        total_questions := key.length
        score_percentage := round2
          (if 0 < key.length then ((key.length : ℚ) / key.length) * 100 else 0)
        correct_answers := key.length
        wrong_answers := 0
        unanswered := 0
        mistakes := []
        grade := calculate_grade
          (if 0 < key.length then ((key.length : ℚ) / key.length) * 100 else 0) } := by
    rw [analyze_single_mcq_sheet, hloop]
    simp only [except_bind_ok, except_pure_eq]
  have hlen : (0 : Nat) < key.length := List.length_pos.mpr hkey
  have hpct : (if 0 < key.length then ((key.length : ℚ) / key.length) * 100 else 0)
      = 100 := by
    rw [if_pos hlen, div_self (Nat.cast_ne_zero.mpr (by omega)), one_mul]
  refine ⟨_, han, rfl, rfl, rfl, ?_⟩
  show round2 (if 0 < key.length then ((key.length : ℚ) / key.length) * 100 else 0)
    = 100
  rw [hpct]
  norm_num [round2]

/-- Concrete instance of `C1_theorem`: student answer B against correct
answer b. -/
theorem C1_witness :
    ([KeyEntry.val (PyVal.str "b")] ≠ ([] : List KeyEntry)) ∧
    ∃ r, analyze_single_mcq_sheet (StudentSheet.seq [PyVal.str "B"])
        [KeyEntry.val (PyVal.str "b")] 1 = .ok r ∧
      r.score = 1 ∧ r.wrong_answers = 0 ∧ r.unanswered = 0 ∧
      r.score_percentage = 100 := by
  refine ⟨by decide, ?_⟩
  have h := C1_theorem (StudentSheet.seq [PyVal.str "B"])
    [KeyEntry.val (PyVal.str "b")] 1 (by decide) ?_
  · simpa using h
  · intro j e he
    match j, he with
    | 0, he =>
      simp only [List.getElem?_cons_zero, Option.some.injEq] at he
      subst he
      exact ⟨"B", by decide, by decide, by decide⟩

/-- C1, claim as stated, is false at two degenerate inputs: a key whose
single correct answer is the empty string, matched case-insensitively by
the matching empty student answer, is scored unanswered with percentage 0, not
100; and the empty key gives percentage 0, not 100. -/
theorem C1_counterexample :
    studentAnswerAt (StudentSheet.seq [PyVal.str ""]) 0 = Except.ok "" ∧
    keyCorrect (KeyEntry.val (PyVal.str "")) = Except.ok "" ∧
    (analyze_single_mcq_sheet (StudentSheet.seq [PyVal.str ""])
        [KeyEntry.val (PyVal.str "")] 1).map
      (fun r => (r.score, r.wrong_answers, r.unanswered)) =
      Except.ok (0, 0, 1) ∧
    (analyze_single_mcq_sheet (StudentSheet.seq [PyVal.str ""])
        [KeyEntry.val (PyVal.str "")] 1).map SheetResult.score_percentage =
      Except.ok 0 ∧
    (analyze_single_mcq_sheet (StudentSheet.seq []) [] 1).map
      SheetResult.score_percentage = Except.ok 0 ∧
    (0 : ℚ) ≠ 100 := by
  have h1 : analyze_single_mcq_sheet (StudentSheet.seq [PyVal.str ""])
      [KeyEntry.val (PyVal.str "")] 1 = .ok
      { student_id := 1
        score := 0
        total_questions := 1
        score_percentage := round2 (if 0 < 1 then ((0 : ℚ) / 1) * 100 else 0)
        correct_answers := 0
        wrong_answers := 0
        unanswered := 1
        mistakes := [⟨1, "unanswered", "", "", "Question " ++ toString 1 ++
          " was not answered"⟩]
        grade := calculate_grade (if 0 < 1 then ((0 : ℚ) / 1) * 100 else 0) } := by
    rw [analyze_single_mcq_sheet,
      show scoreLoop (StudentSheet.seq [PyVal.str ""])
        [KeyEntry.val (PyVal.str "")] 0 = .ok ⟨0, 0, 1, [⟨1, "unanswered", "",
          "", "Question " ++ toString 1 ++ " was not answered"⟩]⟩ from by decide]
    simp
  have h2 : analyze_single_mcq_sheet (StudentSheet.seq []) [] 1 = .ok
      { student_id := 1
        score := 0
        total_questions := 0
        score_percentage := round2 (if (0 : Nat) < 0 then ((0 : ℚ) / 0) * 100 else 0)
        correct_answers := 0
        wrong_answers := 0
        unanswered := 0
        mistakes := []
        grade := calculate_grade (if (0 : Nat) < 0 then ((0 : ℚ) / 0) * 100 else 0) } := by
    rw [analyze_single_mcq_sheet,
      show scoreLoop (StudentSheet.seq []) [] 0 = .ok ⟨0, 0, 0, []⟩ from rfl]
    simp
  refine ⟨by decide, by decide, ?_, ?_, ?_, by norm_num⟩
  · rw [h1]
    rfl
  · rw [h1]
    show Except.ok (round2 (if 0 < 1 then ((0 : ℚ) / 1) * 100 else 0)) =
      Except.ok 0
    norm_num [round2]
  · rw [h2]
    show Except.ok (round2 (if (0 : Nat) < 0 then ((0 : ℚ) / 0) * 100 else 0)) =
      Except.ok 0
    norm_num [round2]

/-! ## The batch loop -/

theorem scoreAllFrom_length (key : List KeyEntry) :
    ∀ (l : List StudentSheet) (i : Nat), (scoreAllFrom key l i).length = l.length := by
  intro l
  induction l with
  | nil => intro i; rfl
  | cons s rest ih => intro i; simp [scoreAllFrom, ih]

/-- Each entry of the batch results list is the scoring of the sheet at
the same position, with the 1-based student id derived from the
position. -/
theorem scoreAllFrom_getElem (key : List KeyEntry) :
    ∀ (l : List StudentSheet) (i j : Nat),
      (scoreAllFrom key l i)[j]? =
        (l[j]?).map (fun s => scoreOne s key (i + j + 1)) := by
  intro l
  induction l with
  | nil => intro i j; simp [scoreAllFrom]
  | cons s rest ih =>
    intro i j
    cases j with
    | zero => simp [scoreAllFrom]
    | succ j' =>
      simp only [scoreAllFrom, List.getElem?_cons_succ]
      rw [ih (i + 1) j']
      have harith : i + 1 + j' + 1 = i + (j' + 1) + 1 := by omega
      rw [harith]

/-- The identity-independent content of a scored sheet does not depend on
the student id passed to the scorer. -/
theorem scoreOne_shape (s : StudentSheet) (key : List KeyEntry) (a b : Nat) :
    (scoreOne s key a).shape = (scoreOne s key b).shape := by
  unfold scoreOne
  unfold analyze_single_mcq_sheet
  cases hl : scoreLoop s key 0 with
  | error msg => rfl
  | ok t => rfl

/-- A failing sheet is scored as the substituted error entry. -/
theorem scoreOne_error (s : StudentSheet) (key : List KeyEntry) (sid : Nat)
    (msg : String) (h : scoreLoop s key 0 = .error msg) :
    scoreOne s key sid = .err sid
      ("Failed to analyze sheet " ++ toString sid ++ ": " ++ msg)
      key.length := by
  unfold scoreOne
  unfold analyze_single_mcq_sheet
  rw [h]
  rfl

/-- A batch request passing validation and the plan limit is answered
with the scored results and their summary. -/
theorem analyze_mcq_batch_ok (student_answers : List StudentSheet)
    (answer_key : List KeyEntry) (user_plan : String)
    (hkey : answer_key ≠ [])
    (hfit : student_answers.length ≤ get_mcq_limit user_plan) :
    analyze_mcq_batch student_answers answer_key user_plan =
      .ok (scoreAllFrom answer_key student_answers 0)
        (generate_batch_summary (scoreAllFrom answer_key student_answers 0)
          answer_key) := by
  rw [analyze_mcq_batch]
  rw [if_neg (by simpa [List.isEmpty_iff] using hkey),
    if_neg (Nat.not_lt.mpr hfit)]

/-- C9 (amended): when the scoring of one sheet raises, the batch loop
substitutes the error entry for it and still scores every other sheet;
the entries before the bad sheet are identical to the run without it,
and the entries after it have the same identity-independent content,
their student ids being shifted by one because ids are the 1-based
positions in the submitted batch. -/
theorem C9_theorem (pre post : List StudentSheet) (bad : StudentSheet)
    (key : List KeyEntry) (plan msg : String)
    (hkey : key ≠ [])
    (hfit : (pre ++ bad :: post).length ≤ get_mcq_limit plan)
    (hbad : scoreLoop bad key 0 = .error msg) :
    ∃ results results' osummary osummary',
      analyze_mcq_batch (pre ++ bad :: post) key plan = .ok results osummary ∧
      analyze_mcq_batch (pre ++ post) key plan = .ok results' osummary' ∧
      results.length = pre.length + 1 + post.length ∧
      results'.length = pre.length + post.length ∧
      results[pre.length]? = some (.err (pre.length + 1)
        ("Failed to analyze sheet " ++ toString (pre.length + 1) ++ ": " ++ msg)
        key.length) ∧
      (∀ j, j < pre.length → results[j]? = results'[j]?) ∧
      (∀ j, (results[pre.length + 1 + j]?).map ResultEntry.shape =
        (results'[pre.length + j]?).map ResultEntry.shape) := by
  have hfit' : (pre ++ post).length ≤ get_mcq_limit plan := by
    simp only [List.length_append, List.length_cons] at hfit ⊢
    omega
  refine ⟨_, _, _, _, analyze_mcq_batch_ok _ _ _ hkey hfit,
    analyze_mcq_batch_ok _ _ _ hkey hfit', ?_, ?_, ?_, ?_, ?_⟩
  · rw [scoreAllFrom_length]
    simp only [List.length_append, List.length_cons]
    omega
  · rw [scoreAllFrom_length]
    simp only [List.length_append]
  · rw [scoreAllFrom_getElem]
    have hmid : (pre ++ bad :: post)[pre.length]? = some bad := by
      rw [List.getElem?_append_right (Nat.le_refl _)]
      simp
    rw [hmid]
    simp only [Option.map_some']
    rw [scoreOne_error bad key (0 + pre.length + 1) msg hbad]
    have harith : 0 + pre.length + 1 = pre.length + 1 := by omega
    rw [harith]
  · intro j hj
    rw [scoreAllFrom_getElem, scoreAllFrom_getElem]
    rw [List.getElem?_append_left (by simpa using hj),
      List.getElem?_append_left (by simpa using hj)]
  · intro j
    rw [scoreAllFrom_getElem, scoreAllFrom_getElem]
    have hfull : (pre ++ bad :: post)[pre.length + 1 + j]? = post[j]? := by
      rw [List.getElem?_append_right (by omega)]
      have : pre.length + 1 + j - pre.length = j + 1 := by omega
      rw [this]
      simp
    have hred : (pre ++ post)[pre.length + j]? = post[j]? := by
      rw [List.getElem?_append_right (by omega)]
      have : pre.length + j - pre.length = j := by omega
      rw [this]
    rw [hfull, hred]
    cases hpj : post[j]? with
    | none => rfl
    | some s =>
      simp only [Option.map_some']
      rw [scoreOne_shape s key (0 + (pre.length + 1 + j) + 1)
        (0 + (pre.length + j) + 1)]

/-- Concrete instance of `C9_theorem`: a three-sheet batch whose middle
sheet holds a non-string answer. -/
theorem C9_witness :
    ([KeyEntry.val (PyVal.str "A")] ≠ ([] : List KeyEntry)) ∧
    ([StudentSheet.seq [PyVal.str "A"]] ++ StudentSheet.seq [PyVal.int 0] ::
      [StudentSheet.seq [PyVal.str ""]]).length ≤ get_mcq_limit "premium" ∧
    scoreLoop (StudentSheet.seq [PyVal.int 0]) [KeyEntry.val (PyVal.str "A")] 0 =
      .error "AttributeError: object has no attribute upper" ∧
    (∃ results results' osummary osummary',
      analyze_mcq_batch ([StudentSheet.seq [PyVal.str "A"]] ++
          StudentSheet.seq [PyVal.int 0] :: [StudentSheet.seq [PyVal.str ""]])
          [KeyEntry.val (PyVal.str "A")] "premium" = .ok results osummary ∧
      analyze_mcq_batch ([StudentSheet.seq [PyVal.str "A"]] ++
          [StudentSheet.seq [PyVal.str ""]])
          [KeyEntry.val (PyVal.str "A")] "premium" = .ok results' osummary' ∧
      results.length = 1 + 1 + 1 ∧
      results'.length = 1 + 1 ∧
      results[(1 : Nat)]? = some (.err (1 + 1)
        ("Failed to analyze sheet " ++ toString (1 + 1) ++ ": " ++
          "AttributeError: object has no attribute upper") 1) ∧
      (∀ j, j < 1 → results[j]? = results'[j]?) ∧
      (∀ j, (results[1 + 1 + j]?).map ResultEntry.shape =
        (results'[1 + j]?).map ResultEntry.shape)) := by
  refine ⟨by decide, by decide, by decide, ?_⟩
  have h := C9_theorem [StudentSheet.seq [PyVal.str "A"]]
    [StudentSheet.seq [PyVal.str ""]] (StudentSheet.seq [PyVal.int 0])
    [KeyEntry.val (PyVal.str "A")] "premium"
    "AttributeError: object has no attribute upper"
    (by decide) (by decide) (by decide)
  simpa using h

/-- C9, claim as stated, is false: with a bad first sheet and a good
second sheet, the good sheet's result carries student id 2, while in the
batch without the bad sheet it carries student id 1, so the results are
not the same. -/
theorem C9_counterexample :
    (match analyze_mcq_batch
        [StudentSheet.seq [PyVal.int 0], StudentSheet.seq [PyVal.str "A"]]
        [KeyEntry.val (PyVal.str "A")] "premium" with
      | .ok results _ => (results[(1 : Nat)]?).map ResultEntry.sid
      | _ => none) = some 2 ∧
    (match analyze_mcq_batch [StudentSheet.seq [PyVal.str "A"]]
        [KeyEntry.val (PyVal.str "A")] "premium" with
      | .ok results _ => (results[(0 : Nat)]?).map ResultEntry.sid
      | _ => none) = some 1 ∧
    (some 2 : Option Nat) ≠ some 1 := by
  refine ⟨by decide, by decide, by decide⟩

/-! ## The batch summary -/

/-- Unfolding of `generate_batch_summary` on a non-empty results list. -/
theorem generate_batch_summary_ok (results : List ResultEntry)
    (answer_key : List KeyEntry) (h : results ≠ []) :
    generate_batch_summary results answer_key = some {
      total_students := results.length
      total_questions := answer_key.length
      average_score := round2
        (((results.map ResultEntry.getScore).sum : ℚ) / results.length)
      average_percentage := round2
        (if 0 < answer_key.length then
          ((((results.map ResultEntry.getScore).sum : ℚ) / results.length) /
            answer_key.length) * 100
         else 0)
      highest_score := ((results.map ResultEntry.getScore).max?).getD 0
      lowest_score := ((results.map ResultEntry.getScore).min?).getD 0
      grade_distribution := gradeDistribution results
      question_analysis := (List.range answer_key.length).map (fun i =>
        { question_number := i + 1
          correct_responses :=
            (results.filter (fun r => decide (i < r.getScore))).length
          incorrect_responses := results.length -
            (results.filter (fun r => decide (i < r.getScore))).length
          success_rate := round2
            ((((results.filter (fun r => decide (i < r.getScore))).length : ℚ) /
              results.length) * 100)
          difficulty :=
            if (0.8 : ℚ) < ((results.filter
                (fun r => decide (i < r.getScore))).length : ℚ) / results.length
            then "Easy"
            else if (0.5 : ℚ) < ((results.filter
                (fun r => decide (i < r.getScore))).length : ℚ) / results.length
            then "Medium" else "Hard" }) } := by
  have hpos : 0 < results.length := List.length_pos.mpr h
  rw [generate_batch_summary]
  rw [if_neg (by simpa [List.isEmpty_iff] using h)]
  simp only [hpos, if_true]

/-- C4: the per-question analysis of a non-empty batch uses the
position-based proxy: `correct_responses` for question index `i` is the
number of results whose score is strictly greater than `i`, the
incorrect count is its complement, the success rate is the rounded
percentage, and the difficulty thresholds are 0.8 and 0.5. -/
theorem C4_theorem (results : List ResultEntry) (answer_key : List KeyEntry)
    (h : results ≠ []) :
    ∃ s, generate_batch_summary results answer_key = some s ∧
      s.total_students = results.length ∧
      s.question_analysis.length = answer_key.length ∧
      ∀ i, i < answer_key.length →
        ∃ qa, s.question_analysis[i]? = some qa ∧
          qa.question_number = i + 1 ∧
          qa.correct_responses =
            (results.filter (fun r => decide (i < r.getScore))).length ∧
          qa.incorrect_responses = results.length - qa.correct_responses ∧
          qa.success_rate = round2
            (((qa.correct_responses : ℚ) / results.length) * 100) ∧
          qa.difficulty =
            (if (0.8 : ℚ) < (qa.correct_responses : ℚ) / results.length
             then "Easy"
             else if (0.5 : ℚ) < (qa.correct_responses : ℚ) / results.length
             then "Medium" else "Hard") := by
  refine ⟨_, generate_batch_summary_ok results answer_key h, rfl, ?_, ?_⟩
  · simp
  · intro i hi
    refine ⟨{ question_number := i + 1
              correct_responses :=
                (results.filter (fun r => decide (i < r.getScore))).length
              incorrect_responses := results.length -
                (results.filter (fun r => decide (i < r.getScore))).length
              success_rate := round2
                ((((results.filter (fun r =>
                  decide (i < r.getScore))).length : ℚ) / results.length) * 100)
              difficulty :=
                if (0.8 : ℚ) < ((results.filter (fun r =>
                    decide (i < r.getScore))).length : ℚ) / results.length
                then "Easy"
                else if (0.5 : ℚ) < ((results.filter (fun r =>
                    decide (i < r.getScore))).length : ℚ) / results.length
                then "Medium" else "Hard" }, ?_, rfl, rfl, rfl, rfl, rfl⟩
    show ((List.range answer_key.length).map _)[i]? = _
    rw [List.getElem?_map, List.getElem?_range hi]
    rfl

/-- C5: on a non-empty batch the summary's average score is the rounded
arithmetic mean of the scores, the average percentage is the rounded
`mean / total_questions * 100` (guarded to 0 when the key is empty), and
highest and lowest scores are the maximum and minimum of the scores. -/
theorem C5_theorem (results : List ResultEntry) (answer_key : List KeyEntry)
    (h : results ≠ []) :
    ∃ s, generate_batch_summary results answer_key = some s ∧
      s.total_students = results.length ∧
      s.average_score = round2
        (((results.map ResultEntry.getScore).sum : ℚ) / results.length) ∧
      s.average_percentage = round2
        (if 0 < answer_key.length then
          ((((results.map ResultEntry.getScore).sum : ℚ) / results.length) /
            answer_key.length) * 100
         else 0) ∧
      (results.map ResultEntry.getScore).max? = some s.highest_score ∧
      (results.map ResultEntry.getScore).min? = some s.lowest_score := by
  refine ⟨_, generate_batch_summary_ok results answer_key h, rfl, rfl, rfl, ?_, ?_⟩
  · show _ = some (((results.map ResultEntry.getScore).max?).getD 0)
    cases hm : (results.map ResultEntry.getScore).max? with
    | none =>
      rw [List.max?_eq_none_iff, List.map_eq_nil_iff] at hm
      exact absurd hm h
    | some v => rfl
  · show _ = some (((results.map ResultEntry.getScore).min?).getD 0)
    cases hm : (results.map ResultEntry.getScore).min? with
    | none =>
      rw [List.min?_eq_none_iff, List.map_eq_nil_iff] at hm
      exact absurd hm h
    | some v => rfl

/-- Concrete instance of `C5_theorem`: two sheets scoring 2 and 1 against
a 2-question key give average score 1.5, average percentage 75.0,
highest score 2 and lowest score 1. -/
theorem C5_witness :
    ([ResultEntry.ok ⟨1, 2, 2, 100, 2, 0, 0, [], "A+"⟩,
      ResultEntry.ok ⟨2, 1, 2, 50, 1, 1, 0, [], "C-"⟩] ≠
      ([] : List ResultEntry)) ∧
    (∃ s, generate_batch_summary
        [ResultEntry.ok ⟨1, 2, 2, 100, 2, 0, 0, [], "A+"⟩,
         ResultEntry.ok ⟨2, 1, 2, 50, 1, 1, 0, [], "C-"⟩]
        [KeyEntry.val (PyVal.str "A"), KeyEntry.val (PyVal.str "B")] = some s ∧
      s.total_students = 2 ∧
      s.average_score = round2
        ((([ResultEntry.ok ⟨1, 2, 2, 100, 2, 0, 0, [], "A+"⟩,
            ResultEntry.ok ⟨2, 1, 2, 50, 1, 1, 0, [], "C-"⟩].map
              ResultEntry.getScore).sum : ℚ) / 2) ∧
      s.average_percentage = round2
        (if 0 < ([KeyEntry.val (PyVal.str "A"),
            KeyEntry.val (PyVal.str "B")] : List KeyEntry).length then
          ((([ResultEntry.ok ⟨1, 2, 2, 100, 2, 0, 0, [], "A+"⟩,
            ResultEntry.ok ⟨2, 1, 2, 50, 1, 1, 0, [], "C-"⟩].map
              ResultEntry.getScore).sum : ℚ) / 2 /
            ([KeyEntry.val (PyVal.str "A"),
              KeyEntry.val (PyVal.str "B")] : List KeyEntry).length) * 100
         else 0) ∧
      ([ResultEntry.ok ⟨1, 2, 2, 100, 2, 0, 0, [], "A+"⟩,
        ResultEntry.ok ⟨2, 1, 2, 50, 1, 1, 0, [], "C-"⟩].map
          ResultEntry.getScore).max? = some s.highest_score ∧
      ([ResultEntry.ok ⟨1, 2, 2, 100, 2, 0, 0, [], "A+"⟩,
        ResultEntry.ok ⟨2, 1, 2, 50, 1, 1, 0, [], "C-"⟩].map
          ResultEntry.getScore).min? = some s.lowest_score) ∧
    (generate_batch_summary
        [ResultEntry.ok ⟨1, 2, 2, 100, 2, 0, 0, [], "A+"⟩,
         ResultEntry.ok ⟨2, 1, 2, 50, 1, 1, 0, [], "C-"⟩]
        [KeyEntry.val (PyVal.str "A"), KeyEntry.val (PyVal.str "B")]).map
      (fun s => (s.average_score, s.average_percentage, s.highest_score,
        s.lowest_score)) = some (3 / 2, 75, 2, 1) := by
  refine ⟨by decide, ?_, ?_⟩
  · have h := C5_theorem
      [ResultEntry.ok ⟨1, 2, 2, 100, 2, 0, 0, [], "A+"⟩,
       ResultEntry.ok ⟨2, 1, 2, 50, 1, 1, 0, [], "C-"⟩]
      [KeyEntry.val (PyVal.str "A"), KeyEntry.val (PyVal.str "B")] (by decide)
    simpa using h
  · rw [generate_batch_summary_ok _ _ (by decide)]
    simp only [Option.map_some']
    refine congrArg some ?_
    have h1 : (([ResultEntry.ok ⟨1, 2, 2, 100, 2, 0, 0, [], "A+"⟩,
        ResultEntry.ok ⟨2, 1, 2, 50, 1, 1, 0, [], "C-"⟩].map
          ResultEntry.getScore).sum : ℚ) = 3 := by
      norm_num [ResultEntry.getScore]
    have h2 : (([ResultEntry.ok ⟨1, 2, 2, 100, 2, 0, 0, [], "A+"⟩,
        ResultEntry.ok ⟨2, 1, 2, 50, 1, 1, 0, [], "C-"⟩] :
          List ResultEntry).length : ℚ) = 2 := by
      norm_num
    have h3 : (([KeyEntry.val (PyVal.str "A"),
        KeyEntry.val (PyVal.str "B")] : List KeyEntry).length : ℚ) = 2 := by
      norm_num
    show (round2 _, round2 _, _, _) = _
    rw [h1, h2, h3, if_pos (by norm_num)]
    simp only [Prod.mk.injEq]
    refine ⟨?_, ?_, by decide, by decide⟩
    · rw [round2_val ((3 : ℚ) / 2) 150 (by norm_num) (by norm_num)]
      norm_num
    · rw [round2_val ((3 : ℚ) / 2 / 2 * 100) 7500 (by norm_num) (by norm_num)]
      norm_num

/-- Concrete instance of `C4_theorem`. -/
theorem C4_witness :
    ([ResultEntry.ok ⟨1, 2, 2, 100, 2, 0, 0, [], "A+"⟩,
      ResultEntry.ok ⟨2, 1, 2, 50, 1, 1, 0, [], "C-"⟩] ≠
      ([] : List ResultEntry)) ∧
    ∃ s, generate_batch_summary
        [ResultEntry.ok ⟨1, 2, 2, 100, 2, 0, 0, [], "A+"⟩,
         ResultEntry.ok ⟨2, 1, 2, 50, 1, 1, 0, [], "C-"⟩]
        [KeyEntry.val (PyVal.str "A"), KeyEntry.val (PyVal.str "B")] = some s ∧
      s.total_students = 2 ∧
      s.question_analysis.length = 2 ∧
      ∀ i, i < 2 →
        ∃ qa, s.question_analysis[i]? = some qa ∧
          qa.question_number = i + 1 ∧
          qa.correct_responses =
            ([ResultEntry.ok ⟨1, 2, 2, 100, 2, 0, 0, [], "A+"⟩,
              ResultEntry.ok ⟨2, 1, 2, 50, 1, 1, 0, [], "C-"⟩].filter
                (fun r => decide (i < r.getScore))).length ∧
          qa.incorrect_responses = 2 - qa.correct_responses ∧
          qa.success_rate = round2 (((qa.correct_responses : ℚ) / 2) * 100) ∧
          qa.difficulty =
            (if (0.8 : ℚ) < (qa.correct_responses : ℚ) / 2 then "Easy"
             else if (0.5 : ℚ) < (qa.correct_responses : ℚ) / 2 then "Medium"
             else "Hard") := by
  refine ⟨by decide, ?_⟩
  have h := C4_theorem
    [ResultEntry.ok ⟨1, 2, 2, 100, 2, 0, 0, [], "A+"⟩,
     ResultEntry.ok ⟨2, 1, 2, 50, 1, 1, 0, [], "C-"⟩]
    [KeyEntry.val (PyVal.str "A"), KeyEntry.val (PyVal.str "B")] (by decide)
  simpa using h

/-- Lookup after the in-place increment of one key. -/
theorem lookup_bump_map (d : List (String × Nat)) (g0 g : String) :
    ((d.map (fun p => if p.1 = g0 then (p.1, p.2 + 1) else p)).lookup g) =
      if g = g0 then (d.lookup g).map (· + 1) else d.lookup g := by
  induction d with
  | nil => split_ifs <;> simp
  | cons p rest ih =>
    obtain ⟨k, v⟩ := p
    simp only [List.map_cons]
    by_cases hk0 : k = g0
    · rw [show (if (k, v).1 = g0 then ((k, v).1, (k, v).2 + 1) else (k, v)) =
        (k, v + 1) from by simp [hk0]]
      rw [List.lookup_cons, List.lookup_cons]
      by_cases hg : g = k
      · have hbeq : (g == k) = true := by simp [hg]
        rw [hbeq]
        simp only []
        rw [if_pos (hg.trans hk0)]
        rfl
      · have hbeq : (g == k) = false := by simp [hg]
        rw [hbeq]
        simp only []
        rw [ih, if_neg (fun hgg => hg (hgg.trans hk0.symm))]
    · rw [show (if (k, v).1 = g0 then ((k, v).1, (k, v).2 + 1) else (k, v)) =
        (k, v) from by simp [hk0]]
      rw [List.lookup_cons, List.lookup_cons]
      by_cases hg : g = k
      · have hbeq : (g == k) = true := by simp [hg]
        rw [hbeq]
        simp only []
        rw [if_neg (fun hgg => hk0 (hg.symm.trans hgg))]
      · have hbeq : (g == k) = false := by simp [hg]
        rw [hbeq]
        simp only []
        rw [ih]

/-- Lookup after appending a fresh key with count 1. -/
theorem lookup_append_single (d : List (String × Nat)) (g0 g : String) :
    (d ++ [(g0, 1)]).lookup g =
      (match d.lookup g with
        | some v => some v
        | none => if g = g0 then some 1 else none) := by
  rw [List.lookup_append]
  cases d.lookup g with
  | some v => rfl
  | none =>
    by_cases hg : g = g0
    · simp [Option.or, List.lookup_cons, beq_iff_eq, hg]
    · have hbeq : (g == g0) = false := by simp [hg]
      simp [Option.or, List.lookup_cons, hbeq, hg]

/-- Lookup after one step of the grade-distribution accumulation. -/
theorem bump_lookup (d : List (String × Nat)) (g0 g : String) :
    (bumpGrade d g0).lookup g =
      if g = g0 then some ((d.lookup g0).getD 0 + 1) else d.lookup g := by
  unfold bumpGrade
  by_cases hex : (d.lookup g0).isSome
  · rw [if_pos hex, lookup_bump_map]
    by_cases hg : g = g0
    · subst hg
      obtain ⟨v, hv⟩ := Option.isSome_iff_exists.mp hex
      simp [hv]
    · simp [hg]
  · have hnone : d.lookup g0 = none := Option.not_isSome_iff_eq_none.mp hex
    rw [if_neg hex, lookup_append_single]
    by_cases hg : g = g0
    · subst hg
      simp [hnone]
    · cases hd : d.lookup g with
      | none => simp [hg]
      | some v => simp [hg]

/-- The grade-distribution fold counts, per grade, the results processed
so far on top of the accumulator. -/
theorem foldl_bump_lookup (g : String) :
    ∀ (l : List ResultEntry) (d : List (String × Nat)),
      ((l.foldl (fun acc r => bumpGrade acc r.getGrade) d).lookup g) =
        (match d.lookup g with
          | some v => some (v + l.countP (fun r => r.getGrade == g))
          | none =>
            if l.countP (fun r => r.getGrade == g) = 0 then none
            else some (l.countP (fun r => r.getGrade == g))) := by
  intro l
  induction l with
  | nil =>
    intro d
    cases hd : d.lookup g with
    | some v => simp [hd]
    | none => simp [hd]
  | cons r rest ih =>
    intro d
    rw [List.foldl_cons, ih (bumpGrade d r.getGrade), bump_lookup]
    by_cases hg : g = r.getGrade
    · rw [if_pos hg]
      have hpred : (r.getGrade == g) = true := by simp [hg.symm]
      rw [List.countP_cons]
      simp only [hpred, if_true]
      cases hd : d.lookup g with
      | some v =>
        rw [show d.lookup r.getGrade = some v from hg ▸ hd]
        simp only [Option.getD_some]
        refine congrArg some ?_
        omega
      | none =>
        rw [show d.lookup r.getGrade = none from hg ▸ hd]
        simp only [Option.getD_none]
        rw [if_neg (by omega)]
        refine congrArg some ?_
        omega
    · rw [if_neg hg]
      have hpred : (r.getGrade == g) = false := by
        simp only [beq_eq_false_iff_ne, ne_eq]
        exact fun hc => hg hc.symm
      rw [List.countP_cons]
      simp [hpred]

/-- C6: on a non-empty batch, the grade distribution maps each letter
grade present among the results to the number of results carrying that
grade (error entries counting as F through the `get` default), and has
no key for grades no result carries. -/
theorem C6_theorem (results : List ResultEntry) (answer_key : List KeyEntry)
    (h : results ≠ []) :
    ∃ s, generate_batch_summary results answer_key = some s ∧
      ∀ g : String,
        s.grade_distribution.lookup g =
          (if results.countP (fun r => r.getGrade == g) = 0 then none
           else some (results.countP (fun r => r.getGrade == g))) := by
  refine ⟨_, generate_batch_summary_ok results answer_key h, ?_⟩
  intro g
  show (gradeDistribution results).lookup g = _
  unfold gradeDistribution
  rw [foldl_bump_lookup]
  simp

/-- Concrete instance of `C6_theorem`: grades A+ and C-, one result
each; an absent grade has no key. -/
theorem C6_witness :
    ([ResultEntry.ok ⟨1, 2, 2, 100, 2, 0, 0, [], "A+"⟩,
      ResultEntry.ok ⟨2, 1, 2, 50, 1, 1, 0, [], "C-"⟩] ≠
      ([] : List ResultEntry)) ∧
    ∃ s, generate_batch_summary
        [ResultEntry.ok ⟨1, 2, 2, 100, 2, 0, 0, [], "A+"⟩,
         ResultEntry.ok ⟨2, 1, 2, 50, 1, 1, 0, [], "C-"⟩]
        [KeyEntry.val (PyVal.str "A"), KeyEntry.val (PyVal.str "B")] = some s ∧
      ∀ g : String,
        s.grade_distribution.lookup g =
          (if [ResultEntry.ok ⟨1, 2, 2, 100, 2, 0, 0, [], "A+"⟩,
              ResultEntry.ok ⟨2, 1, 2, 50, 1, 1, 0, [], "C-"⟩].countP
                (fun r => r.getGrade == g) = 0 then none
           else some ([ResultEntry.ok ⟨1, 2, 2, 100, 2, 0, 0, [], "A+"⟩,
              ResultEntry.ok ⟨2, 1, 2, 50, 1, 1, 0, [], "C-"⟩].countP
                (fun r => r.getGrade == g))) :=
  ⟨by decide, C6_theorem _ _ (by decide)⟩
